import Mathlib

/-!
Shallow embedding of `src/app.py` (PRD security assistant): a Streamlit
application that extracts text from an uploaded DOCX, asks an LLM for a
STRIDE risk table, and assembles a Markdown report. External collaborators
(the LLM client, the DOCX parser, pandas, Streamlit widgets) are modelled
as explicit oracle parameters or small executable renderings; the control
flow, guards, try/except structure and session-state updates are translated
directly from the source.
-/

namespace PRDApp

/-- JSON values, the type of what `JsonOutputParser` can produce and of the
session field `risk_data`. -/
inductive Json where
  | null
  | bool (b : Bool)
  | num (n : Int)
  | str (s : String)
  | arr (elems : List Json)
  | obj (fields : List (String × Json))

/-- Python truthiness of a JSON value (`if st.session_state.risk_data:`). -/
def Json.truthy : Json → Bool
  | .null => false
  | .bool b => b
  | .num n => n != 0
  | .str s => !s.isEmpty
  | .arr xs => !xs.isEmpty
  | .obj fs => !fs.isEmpty

/-- Truthiness of an optional JSON value (`None` is falsy). -/
def truthyOptJson : Option Json → Bool
  | none => false
  | some v => v.truthy

/-- Truthiness of an optional string (`None` and `""` are falsy). -/
def truthyOptStr : Option String → Bool
  | none => false
  | some s => !s.isEmpty

/-- The process environment as read by the app: `MODELAI` and
`GOOGLE_API_KEY` from `os.getenv`. -/
structure Env where
  modelai : Option String
  google_api_key : Option String
deriving Repr, DecidableEq

/-- `os.getenv("MODELAI", "gemini-flash-latest")` (app.py lines 91 and 137). -/
def modelName (env : Env) : String :=
  env.modelai.getD "gemini-flash-latest"

/-- Modelled from the spec: construction of the external
`ChatGoogleGenerativeAI` client (app.py lines 99 and 140). Per spec section
4.2 the API credential is required and its absence is a fatal configuration
error, so the construction is modelled as failing exactly when no credential
is configured and succeeding otherwise. -/
def clientConstruct (env : Env) : Except String Unit :=
  match env.google_api_key with
  | none => .error "DefaultCredentialsError: missing API credential"
  | some _ => .ok ()

/-! ## Document extraction (`load_docx`, app.py lines 51-82) -/

/-- An uploaded file: its client-declared name and its binary content
(modelled as a string). -/
structure Upload where
  name : String
  content : String
deriving Repr, DecidableEq

/-- The filesystem fragment the app touches: the set of existing paths. -/
structure FS where
  files : List String
deriving Repr, DecidableEq

/-- Creating (or truncating) a file at a path: `open(temp_path, "wb")`. -/
def FS.write (fs : FS) (p : String) : FS :=
  ⟨p :: fs.files.filter (fun q => q ≠ p)⟩

/-- `os.remove(path)`. -/
def FS.remove (fs : FS) (p : String) : FS :=
  ⟨fs.files.filter (fun q => q ≠ p)⟩

/-- `os.path.exists(path)`. -/
def FS.pathExists (fs : FS) (p : String) : Bool :=
  fs.files.contains p

/-- `os.path.join("temp", uploaded_file.name)` (app.py line 58): the fixed
relative directory joined with the client filename. -/
def ospathJoinTemp (name : String) : String :=
  "temp/" ++ name

/-- The temporary path `load_docx` uses for an upload. -/
def tempPathOf (u : Upload) : String :=
  ospathJoinTemp u.name

/-- Result of `load_docx`: the returned content (or the propagated
exception) together with the filesystem after the call. -/
structure LoadResult where
  content : Except String String
  fs : FS
deriving Repr

/-- `load_docx` (app.py lines 51-82). `loaderResult` is the oracle for the
external `Docx2txtLoader.load()` call: either the list of extracted
documents' `page_content` strings or the exception the parser throws. The
write to the temp path happens before the `try`; the load and the
`data[0].page_content` access happen inside it (an empty document list makes
`data[0]` raise, which the `except` logs and re-raises); the `finally`
removes the temp path when it exists. -/
def load_docx (loaderResult : Except String (List String)) (u : Upload)
    (fs : FS) : LoadResult :=
  let temp_path := tempPathOf u
  let fs1 := fs.write temp_path
  let step : Except String String :=
    match loaderResult with
    | .error e => .error e
    | .ok [] => .error "IndexError: list index out of range"
    | .ok (c :: _) => .ok c
  let fs2 := if fs1.pathExists temp_path then fs1.remove temp_path else fs1
  ⟨step, fs2⟩

lemma FS.not_mem_remove (fs : FS) (p : String) : p ∉ (fs.remove p).files := by
  intro h
  rcases List.mem_filter.mp h with ⟨-, hq⟩
  simp at hq

lemma FS.pathExists_write (fs : FS) (p : String) :
    (fs.write p).pathExists p = true := by
  simp [FS.write, FS.pathExists, List.contains_iff_exists_mem_beq]

/-- C2: for every loader outcome (success, parser exception, or empty
parse result) and every starting filesystem, after `load_docx` returns the
temporary path it wrote no longer exists on disk. -/
theorem load_docx_cleans_temp_file (loaderResult : Except String (List String))
    (u : Upload) (fs : FS) :
    tempPathOf u ∉ (load_docx loaderResult u fs).fs.files := by
  show tempPathOf u ∉
    (if (fs.write (tempPathOf u)).pathExists (tempPathOf u) = true then
        (fs.write (tempPathOf u)).remove (tempPathOf u)
      else fs.write (tempPathOf u)).files
  rw [if_pos (FS.pathExists_write fs (tempPathOf u))]
  exact FS.not_mem_remove (fs.write (tempPathOf u)) (tempPathOf u)

/-- C7 counterexample: two distinct uploads (same client filename, different
contents) are written to the same temporary path, so temporary paths are not
unique per upload. -/
theorem temp_path_collision_same_filename :
    (⟨"report.docx", "contents A"⟩ : Upload) ≠ (⟨"report.docx", "contents B"⟩ : Upload)
    ∧ tempPathOf ⟨"report.docx", "contents A"⟩
        = tempPathOf ⟨"report.docx", "contents B"⟩ := by
  exact ⟨by decide, rfl⟩

/-- C7 amended: the temporary path is derived solely from the uploaded
filename (`temp/<name>`), so two uploads share a temporary path exactly when
their filenames are equal; distinct filenames give distinct paths. -/
theorem temp_path_eq_iff_name_eq (u1 u2 : Upload) :
    tempPathOf u1 = tempPathOf u2 ↔ u1.name = u2.name := by
  constructor
  · intro h
    have hd : ("temp/" ++ u1.name).data = ("temp/" ++ u2.name).data := by
      exact congrArg String.data h
    simp only [String.data_append] at hd
    exact String.ext (List.append_cancel_left hd)
  · intro h
    simp [tempPathOf, ospathJoinTemp, h]

/-! ## Risk analysis (`analyze_risk`, app.py lines 84-130) -/

/-- Everything `analyze_risk` produces: the returned value (or a propagated
exception), the `st.error` messages surfaced to the user, the
`logger.error` messages, and whether the network call (`chain.invoke`) was
attempted. -/
structure AnalyzeResult where
  value : Except String Json
  surfacedErrors : List String
  loggedErrors : List String
  networkAttempted : Bool

/-- `analyze_risk` (app.py lines 84-130). `invokeResult` is the oracle for
`chain.invoke` composed with `JsonOutputParser`: either the parsed JSON
value or the exception the call or the parse raised. The missing-credential
guard (line 94) returns `[]` before the client is constructed; the client
construction (line 99) sits outside the `try`, so its failure would
propagate; the `try` (line 123) converts any invoke or parse failure into a
logged, surfaced error and the return value `[]`. -/
def analyze_risk (env : Env) (invokeResult : Except String Json)
    (text_content : String) : AnalyzeResult :=
  match env.google_api_key with
  | none =>
      ⟨.ok (.arr []),
        ["Error: GOOGLE_API_KEY not found in environment variables."],
        ["GOOGLE_API_KEY not found."], false⟩
  | some _ =>
      match clientConstruct env with
      | .error e => ⟨.error e, [], [], false⟩
      | .ok _ =>
          match invokeResult with
          | .ok response => ⟨.ok response, [], [], true⟩
          | .error e =>
              ⟨.ok (.arr []),
                ["Error parsing AI response: " ++ e],
                ["Error during risk assessment analysis: " ++ e], true⟩

lemma clientConstruct_ok_of_key {env : Env} {k : String}
    (h : env.google_api_key = some k) : clientConstruct env = .ok () := by
  simp [clientConstruct, h]

lemma analyze_risk_value_isOk (env : Env) (invokeResult : Except String Json)
    (text_content : String) :
    ∃ v, (analyze_risk env invokeResult text_content).value = .ok v := by
  unfold analyze_risk
  cases h : env.google_api_key with
  | none => exact ⟨.arr [], rfl⟩
  | some k =>
      rw [clientConstruct_ok_of_key h]
      cases invokeResult with
      | ok response => exact ⟨response, rfl⟩
      | error e => exact ⟨.arr [], rfl⟩

/-- C1: `analyze_risk` never propagates an exception (its value is always a
normal return); with no credential configured it returns the empty list,
surfaces and logs the configuration error, and attempts no network call;
and on any LLM-call or JSON-parse failure it returns the empty list with
the error logged and surfaced to the user. -/
theorem analyze_risk_never_raises (env : Env)
    (invokeResult : Except String Json) (text_content : String) :
    (∃ v, (analyze_risk env invokeResult text_content).value = .ok v)
    ∧ (env.google_api_key = none →
        analyze_risk env invokeResult text_content
          = ⟨.ok (.arr []),
              ["Error: GOOGLE_API_KEY not found in environment variables."],
              ["GOOGLE_API_KEY not found."], false⟩)
    ∧ (∀ e, invokeResult = .error e →
        (analyze_risk env invokeResult text_content).value = .ok (.arr [])
        ∧ (analyze_risk env invokeResult text_content).surfacedErrors ≠ []
        ∧ (analyze_risk env invokeResult text_content).loggedErrors ≠ []) := by
  refine ⟨analyze_risk_value_isOk env invokeResult text_content, ?_, ?_⟩
  · intro hk
    unfold analyze_risk
    rw [hk]
  · intro e he
    unfold analyze_risk
    cases hk : env.google_api_key with
    | none => exact ⟨rfl, by simp, by simp⟩
    | some k =>
        rw [clientConstruct_ok_of_key hk, he]
        exact ⟨rfl, by simp, by simp⟩

/-- C1 witness: at a concrete environment without a credential and a
concrete failing invoke oracle, the guarantees of
`analyze_risk_never_raises` hold with every hypothesis discharged. -/
theorem analyze_risk_never_raises_witness :
    ((⟨none, none⟩ : Env).google_api_key = none)
    ∧ ((Except.error "boom" : Except String Json) = .error "boom")
    ∧ ((∃ v, (analyze_risk ⟨none, none⟩ (.error "boom") "text").value = .ok v)
        ∧ ((⟨none, none⟩ : Env).google_api_key = none →
            analyze_risk ⟨none, none⟩ (.error "boom") "text"
              = ⟨.ok (.arr []),
                  ["Error: GOOGLE_API_KEY not found in environment variables."],
                  ["GOOGLE_API_KEY not found."], false⟩)
        ∧ (∀ e, (Except.error "boom" : Except String Json) = .error e →
            (analyze_risk ⟨none, none⟩ (.error "boom") "text").value
                = .ok (.arr [])
            ∧ (analyze_risk ⟨none, none⟩ (.error "boom") "text").surfacedErrors
                ≠ []
            ∧ (analyze_risk ⟨none, none⟩ (.error "boom") "text").loggedErrors
                ≠ [])) :=
  ⟨rfl, rfl, analyze_risk_never_raises ⟨none, none⟩ (.error "boom") "text"⟩

/-- C10: whenever the invoke oracle yields a parsed JSON value — any value
whatsoever, of any shape: not necessarily an array, with no check of the
five required fields, the risk level, or the STRIDE category — and a
credential is configured, `analyze_risk` returns that value unchanged. -/
theorem analyze_risk_returns_parsed_json_unvalidated (env : Env)
    (invokeResult : Except String Json) (text_content : String)
    (k : String) (v : Json) (hk : env.google_api_key = some k)
    (hv : invokeResult = .ok v) :
    (analyze_risk env invokeResult text_content).value = .ok v := by
  unfold analyze_risk
  rw [hk, clientConstruct_ok_of_key hk, hv]

/-- C10 witness: with a credential present and the model responding with
the bare JSON string "not a list of records", `analyze_risk` returns that
string unchanged as its result. -/
theorem analyze_risk_returns_parsed_json_unvalidated_witness :
    ((⟨none, some "key"⟩ : Env).google_api_key = some "key")
    ∧ ((Except.ok (Json.str "not a list of records") : Except String Json)
        = .ok (Json.str "not a list of records"))
    ∧ (analyze_risk ⟨none, some "key"⟩ (.ok (.str "not a list of records"))
          "text").value = .ok (.str "not a list of records") :=
  ⟨rfl, rfl,
    analyze_risk_returns_parsed_json_unvalidated ⟨none, some "key"⟩
      (.ok (.str "not a list of records")) "text" "key"
      (.str "not a list of records") rfl rfl⟩

/-! ## Narrative generation (`generate_report_narrative`, app.py
lines 131-180) -/

/-- The cleaning applied to the raw narrative response (app.py line 175):
`response.replace("```markdown", "").replace("```", "").strip()`. -/
def stripFences (response : String) : String :=
  ((response.replace "```markdown" "").replace "```" "").trim

/-- The fixed placeholder returned when the narrative call fails
(app.py line 180). -/
def narrativePlaceholder : String :=
  "Error generating report narrative."

/-- `generate_report_narrative` (app.py lines 131-180). `invokeResult` is
the oracle for `chain.invoke` with `StrOutputParser`. Unlike
`analyze_risk`, there is no missing-credential guard: the client
construction (line 140) sits outside the `try` (line 173), so a
construction failure propagates as an exception; only failures of the
invoke itself are caught and replaced with the placeholder. The risks are
serialized with `str(...)` into the prompt, which the invoke oracle
absorbs. -/
def generate_report_narrative (env : Env) (invokeResult : Except String String)
    (text_content : String) (risks_data : Json) : Except String String :=
  match clientConstruct env with
  | .error e => .error e
  | .ok _ =>
      match invokeResult with
      | .ok response => .ok (stripFences response)
      | .error _ => .ok narrativePlaceholder

/-- C4 counterexample: with no API credential configured, the LLM client
construction fails outside the `try`, and `generate_report_narrative`
propagates that exception instead of returning the placeholder string —
even though the invoke oracle itself would have succeeded. -/
theorem narrative_raises_without_credential :
    generate_report_narrative ⟨none, none⟩ (.ok "narrative text") "text"
        (.arr [])
      = .error "DefaultCredentialsError: missing API credential" := rfl

/-- C4 amended: provided the API credential is configured (so the LLM
client construction succeeds), `generate_report_narrative` never raises:
it always returns normally, and on any LLM-call failure it returns the
fixed placeholder string "Error generating report narrative.". -/
theorem narrative_placeholder_when_client_ok (env : Env)
    (invokeResult : Except String String) (text_content : String)
    (risks_data : Json) (k : String) (hk : env.google_api_key = some k) :
    (∃ out, generate_report_narrative env invokeResult text_content risks_data
        = .ok out)
    ∧ (∀ e, invokeResult = .error e →
        generate_report_narrative env invokeResult text_content risks_data
          = .ok narrativePlaceholder) := by
  unfold generate_report_narrative
  rw [clientConstruct_ok_of_key hk]
  constructor
  · cases invokeResult with
    | ok response => exact ⟨stripFences response, rfl⟩
    | error e => exact ⟨narrativePlaceholder, rfl⟩
  · intro e he
    rw [he]

/-- C4 witness: at a concrete environment with a credential and a concrete
failing invoke oracle, the amended guarantee holds with its hypotheses
discharged: the function returns the placeholder normally. -/
theorem narrative_placeholder_when_client_ok_witness :
    ((⟨none, some "key"⟩ : Env).google_api_key = some "key")
    ∧ ((∃ out, generate_report_narrative ⟨none, some "key"⟩ (.error "boom")
          "text" (.arr []) = .ok out)
        ∧ (∀ e, (Except.error "boom" : Except String String) = .error e →
            generate_report_narrative ⟨none, some "key"⟩ (.error "boom")
              "text" (.arr []) = .ok narrativePlaceholder)) :=
  ⟨rfl,
    narrative_placeholder_when_client_ok ⟨none, some "key"⟩ (.error "boom")
      "text" (.arr []) "key" rfl⟩

/-! ## Session state and the report page (app.py lines 234-246, 318-386) -/

/-- The two pages of the router (`st.session_state.page`). -/
inductive Page where
  | home
  | report
deriving Repr, DecidableEq

/-- The Streamlit session state after initialization (app.py lines
234-240). `full_report_md` distinguishes three Python states the code
treats differently: key absent (`none`), key present with value `None`
(`some none`), and key present with a string (`some (some s)`) — the memo
check at line 323 regenerates in the first two cases, and the deletion at
line 277 produces the first. -/
structure SessionState where
  page : Page
  risk_data : Option Json
  original_text : Option String
  full_report_md : Option (Option String)

/-- The assembly step at app.py line 333:
`f"{narrative}\n\n## Risk Assessment\n\n{table_md}"`. -/
def assembleWith (narrative table_md : String) : String :=
  narrative ++ "\n\n## Risk Assessment\n\n" ++ table_md

/-- The back button's `on_click` action (app.py line 319):
`st.session_state.update({'page': 'home'})`. -/
def backButtonAction (s : SessionState) : SessionState :=
  { s with page := .home }

/-- Everything one run of `render_report_page` produces: whether it
returned normally or propagated an exception, the session state afterwards,
how many times the narrative generator was invoked, whether the
"No data available" error was displayed, the report markdown displayed (if
any), and whether the back button was rendered. -/
structure ReportRenderResult where
  outcome : Except String Unit
  state : SessionState
  narrativeCalls : Nat
  displayedError : Bool
  displayedReport : Option String
  backAvailable : Bool

/-- `render_report_page` (app.py lines 318-386). The back button is
rendered first, unconditionally. With truthy `risk_data` and
`original_text`, the memo check regenerates the report exactly when
`full_report_md` is absent or `None`, calling
`generate_report_narrative` (whose client-construction failure would
propagate, leaving the memo unset), rendering the table through the
external pandas `to_markdown` (the `tableMd` oracle), and storing the
assembled report; otherwise the memoized value is reused. With falsy data
only the error message is displayed and the state is untouched. -/
def reportHasData (s : SessionState) : Bool :=
  truthyOptJson s.risk_data && truthyOptStr s.original_text

def render_report_page (env : Env) (narrativeInvoke : Except String String)
    (tableMd : Json → String) (s : SessionState) : ReportRenderResult :=
  if reportHasData s then
    match s.full_report_md with
    | some (some report) => ⟨.ok (), s, 0, false, some report, true⟩
    | _ =>
        match generate_report_narrative env narrativeInvoke
            (s.original_text.getD "") (s.risk_data.getD .null) with
        | .ok narrative =>
            let report := assembleWith narrative (tableMd (s.risk_data.getD .null))
            ⟨.ok (), { s with full_report_md := some (some report) }, 1, false,
              some report, true⟩
        | .error e => ⟨.error e, s, 1, false, none, true⟩
  else
    ⟨.ok (), s, 0, true, none, true⟩

lemma reportHasData_set_report (s : SessionState) (x : Option (Option String)) :
    reportHasData { s with full_report_md := x } = reportHasData s := rfl

/-- C3: whenever a render of the report page completes normally, rendering
it a second time without a new analysis makes no narrative-generator call,
displays the same report (when one was displayed), and leaves the session
state exactly as the first render left it — the memoized `full_report_md`
is reused. -/
theorem report_memoized_second_render_no_call (env : Env)
    (narrativeInvoke : Except String String) (tableMd : Json → String)
    (s : SessionState)
    (h : (render_report_page env narrativeInvoke tableMd s).outcome = .ok ()) :
    (render_report_page env narrativeInvoke tableMd
        (render_report_page env narrativeInvoke tableMd s).state).narrativeCalls
      = 0
    ∧ (render_report_page env narrativeInvoke tableMd
        (render_report_page env narrativeInvoke tableMd s).state).displayedReport
      = (render_report_page env narrativeInvoke tableMd s).displayedReport
    ∧ (render_report_page env narrativeInvoke tableMd
        (render_report_page env narrativeInvoke tableMd s).state).state
      = (render_report_page env narrativeInvoke tableMd s).state := by
  cases hc : reportHasData s with
  | false =>
      simp [render_report_page, hc]
  | true =>
      match hm : s.full_report_md with
      | some (some report) =>
          simp [render_report_page, hc, hm]
      | none =>
          cases hg : generate_report_narrative env narrativeInvoke
              (s.original_text.getD "") (s.risk_data.getD .null) with
          | error e =>
              exfalso
              simp [render_report_page, hc, hm, hg] at h
          | ok narrative =>
              simp [render_report_page, hc, hm, hg, reportHasData_set_report]
      | some none =>
          cases hg : generate_report_narrative env narrativeInvoke
              (s.original_text.getD "") (s.risk_data.getD .null) with
          | error e =>
              exfalso
              simp [render_report_page, hc, hm, hg] at h
          | ok narrative =>
              simp [render_report_page, hc, hm, hg, reportHasData_set_report]

/-- C3 witness: at a concrete session state (report page entered with no
risk data) the first render completes normally, and the second render makes
no narrative call, displays the same report, and keeps the state. -/
theorem report_memoized_second_render_no_call_witness :
    ((render_report_page ⟨none, none⟩ (.ok "n") (fun _ => "t")
        ⟨.report, none, none, none⟩).outcome = .ok ())
    ∧ ((render_report_page ⟨none, none⟩ (.ok "n") (fun _ => "t")
          (render_report_page ⟨none, none⟩ (.ok "n") (fun _ => "t")
            ⟨.report, none, none, none⟩).state).narrativeCalls = 0
        ∧ (render_report_page ⟨none, none⟩ (.ok "n") (fun _ => "t")
            (render_report_page ⟨none, none⟩ (.ok "n") (fun _ => "t")
              ⟨.report, none, none, none⟩).state).displayedReport
          = (render_report_page ⟨none, none⟩ (.ok "n") (fun _ => "t")
              ⟨.report, none, none, none⟩).displayedReport
        ∧ (render_report_page ⟨none, none⟩ (.ok "n") (fun _ => "t")
            (render_report_page ⟨none, none⟩ (.ok "n") (fun _ => "t")
              ⟨.report, none, none, none⟩).state).state
          = (render_report_page ⟨none, none⟩ (.ok "n") (fun _ => "t")
              ⟨.report, none, none, none⟩).state) :=
  ⟨rfl,
    report_memoized_second_render_no_call ⟨none, none⟩ (.ok "n") (fun _ => "t")
      ⟨.report, none, none, none⟩ rfl⟩

/-- C5: on every render of the report page the back button is rendered
(available) unconditionally and the back action transitions to `home`; the
render itself never changes the current page; and when risk data (or the
original text) is missing the render is a pure error display: it shows the
"No data available" message, displays no report, makes no narrative call,
and leaves the session state untouched — the only available transition is
the unconditional back action. -/
theorem report_no_data_error_and_back_unconditional (env : Env)
    (narrativeInvoke : Except String String) (tableMd : Json → String)
    (s : SessionState) :
    (render_report_page env narrativeInvoke tableMd s).backAvailable = true
    ∧ (render_report_page env narrativeInvoke tableMd s).state.page = s.page
    ∧ (backButtonAction s).page = .home
    ∧ (reportHasData s = false →
        render_report_page env narrativeInvoke tableMd s
          = ⟨.ok (), s, 0, true, none, true⟩) := by
  cases hc : reportHasData s with
  | false => simp [render_report_page, hc, backButtonAction]
  | true =>
      match hm : s.full_report_md with
      | some (some report) =>
          simp [render_report_page, hc, hm, backButtonAction]
      | none =>
          cases hg : generate_report_narrative env narrativeInvoke
              (s.original_text.getD "") (s.risk_data.getD .null) with
          | error e => simp [render_report_page, hc, hm, hg, backButtonAction]
          | ok narrative =>
              simp [render_report_page, hc, hm, hg, backButtonAction]
      | some none =>
          cases hg : generate_report_narrative env narrativeInvoke
              (s.original_text.getD "") (s.risk_data.getD .null) with
          | error e => simp [render_report_page, hc, hm, hg, backButtonAction]
          | ok narrative =>
              simp [render_report_page, hc, hm, hg, backButtonAction]

/-- C5 witness: at a concrete report-page state with no risk data, the
back button is available, the back action goes home, and the render is
exactly the error display with the state untouched. -/
theorem report_no_data_error_and_back_unconditional_witness :
    (reportHasData ⟨.report, none, some "text", none⟩ = false)
    ∧ ((render_report_page ⟨none, none⟩ (.ok "n") (fun _ => "t")
          ⟨.report, none, some "text", none⟩).backAvailable = true
        ∧ (render_report_page ⟨none, none⟩ (.ok "n") (fun _ => "t")
            ⟨.report, none, some "text", none⟩).state.page
          = (⟨.report, none, some "text", none⟩ : SessionState).page
        ∧ (backButtonAction ⟨.report, none, some "text", none⟩).page = .home
        ∧ (reportHasData ⟨.report, none, some "text", none⟩ = false →
            render_report_page ⟨none, none⟩ (.ok "n") (fun _ => "t")
                ⟨.report, none, some "text", none⟩
              = ⟨.ok (), ⟨.report, none, some "text", none⟩, 0, true, none,
                  true⟩)) :=
  ⟨rfl,
    report_no_data_error_and_back_unconditional ⟨none, none⟩ (.ok "n")
      (fun _ => "t") ⟨.report, none, some "text", none⟩⟩

/-! ## The home-page assessment action (app.py lines 259-282) -/

/-- Everything the "Perform Security Assessment" click handler produces:
the session state afterwards, the filesystem afterwards, and the error or
warning messages surfaced to the user. -/
structure HomeAssessOutcome where
  state : SessionState
  fs : FS
  surfacedErrors : List String

/-- The body of the `st.button("Perform Security Assessment")` handler for
a present upload (app.py lines 262-279). `load_docx` runs inside the outer
`try`: a raised extraction error is caught by the `except` at line 278 and
surfaced, leaving the state untouched. On success `original_text` is set
first; empty content only surfaces an error; otherwise `analyze_risk` runs,
its result overwrites `risk_data`, and a previously memoized
`full_report_md` is deleted. -/
def performAssessment (loaderResult : Except String (List String))
    (env : Env) (invokeResult : Except String Json) (u : Upload) (fs : FS)
    (s : SessionState) : HomeAssessOutcome :=
  let lr := load_docx loaderResult u fs
  match lr.content with
  | .error e => ⟨s, lr.fs, ["An error occurred: " ++ e]⟩
  | .ok content =>
      let s1 := { s with original_text := some content }
      if content.isEmpty then
        ⟨s1, lr.fs, ["Could not extract text from the document."]⟩
      else
        let ar := analyze_risk env invokeResult content
        match ar.value with
        | .ok risks =>
            ⟨{ s1 with risk_data := some risks, full_report_md := none },
              lr.fs, ar.surfacedErrors⟩
        | .error e => ⟨s1, lr.fs, ["An error occurred: " ++ e]⟩

/-- C6: whenever the assessment action runs and extraction yields non-empty
content, the analysis result overwrites `risk_data`, any previously
memoized `full_report_md` is invalidated (the key is deleted), and
`original_text` is overwritten with the freshly extracted content —
whatever the previous session state held. -/
theorem assessment_overwrites_risk_data_invalidates_report
    (loaderResult : Except String (List String)) (env : Env)
    (invokeResult : Except String Json) (u : Upload) (fs : FS)
    (s : SessionState) (c : String) (rest : List String)
    (hl : loaderResult = .ok (c :: rest)) (hc : c.isEmpty = false) :
    ∃ risks, (analyze_risk env invokeResult c).value = .ok risks
      ∧ (performAssessment loaderResult env invokeResult u fs s).state.risk_data
          = some risks
      ∧ (performAssessment loaderResult env invokeResult u fs s).state.full_report_md
          = none
      ∧ (performAssessment loaderResult env invokeResult u fs s).state.original_text
          = some c := by
  obtain ⟨risks, hr⟩ := analyze_risk_value_isOk env invokeResult c
  refine ⟨risks, hr, ?_⟩
  have hcontent : (load_docx loaderResult u fs).content = .ok c := by
    simp [load_docx, hl]
  simp [performAssessment, hcontent, hc, hr]

/-- C6 witness: at a concrete prior session (stale risk data and a
memoized report), a successful extraction of "doc text" with a concrete
analysis response overwrites `risk_data` and clears `full_report_md`. -/
theorem assessment_overwrites_risk_data_invalidates_report_witness :
    ((Except.ok ["doc text"] : Except String (List String)) = .ok ("doc text" :: []))
    ∧ ("doc text".isEmpty = false)
    ∧ (∃ risks,
        (analyze_risk ⟨none, some "key"⟩ (.ok (.arr [])) "doc text").value
          = .ok risks
        ∧ (performAssessment (.ok ["doc text"]) ⟨none, some "key"⟩
              (.ok (.arr [])) ⟨"a.docx", "bytes"⟩ ⟨[]⟩
              ⟨.home, some (.arr [.str "old"]), some "old text",
                some (some "old report")⟩).state.risk_data = some risks
        ∧ (performAssessment (.ok ["doc text"]) ⟨none, some "key"⟩
              (.ok (.arr [])) ⟨"a.docx", "bytes"⟩ ⟨[]⟩
              ⟨.home, some (.arr [.str "old"]), some "old text",
                some (some "old report")⟩).state.full_report_md = none
        ∧ (performAssessment (.ok ["doc text"]) ⟨none, some "key"⟩
              (.ok (.arr [])) ⟨"a.docx", "bytes"⟩ ⟨[]⟩
              ⟨.home, some (.arr [.str "old"]), some "old text",
                some (some "old report")⟩).state.original_text
            = some "doc text") :=
  ⟨rfl, by decide,
    assessment_overwrites_risk_data_invalidates_report (.ok ["doc text"])
      ⟨none, some "key"⟩ (.ok (.arr [])) ⟨"a.docx", "bytes"⟩ ⟨[]⟩
      ⟨.home, some (.arr [.str "old"]), some "old text",
        some (some "old report")⟩ "doc text" [] rfl (by decide)⟩

/-! ## `main` and the liveness check (app.py lines 184-246) -/

/-- The raw session before initialization: `page` may be absent in
`st.session_state` (the init at lines 235-240 fills it with `'home'`). -/
structure RawSession where
  page : Option Page
  risk_data : Option Json
  original_text : Option String
  full_report_md : Option (Option String)

/-- The session-state initialization (app.py lines 235-240). -/
def initSession (raw : RawSession) : SessionState :=
  ⟨raw.page.getD .home, raw.risk_data, raw.original_text, raw.full_report_md⟩

/-- Everything `main` decides before dispatching to a page renderer: the
`st.write` bodies emitted, which page (if any) is routed to for rendering
(document processing only ever happens inside these page renders, on user
actions), and the session as `main` itself leaves it. -/
structure MainResult where
  writes : List String
  renderedPage : Option Page
  session : RawSession

/-- `main` (app.py lines 184-246). `query_params` is the set of query-
parameter keys of the request (`st.query_params`); the `healthz` key is
checked first (line 188): it writes the fixed body "OK" and returns before
page config, session initialization, and routing. Otherwise the session is
initialized and the renderer for the current page is dispatched. -/
def main (query_params : List String) (raw : RawSession) : MainResult :=
  if query_params.contains "healthz" then
    ⟨["OK"], none, raw⟩
  else
    match (initSession raw).page with
    | .home => ⟨[], some .home, raw⟩
    | .report => ⟨[], some .report, raw⟩

/-- C9: whenever the request's query parameters contain the `healthz`
liveness key, `main` writes exactly the fixed body "OK", routes to no page
(so no document processing and no further UI rendering occurs), and leaves
the session untouched. -/
theorem main_healthz_short_circuit (query_params : List String)
    (raw : RawSession) (h : query_params.contains "healthz" = true) :
    main query_params raw = ⟨["OK"], none, raw⟩ := by
  unfold main
  rw [if_pos h]

/-- C9 witness: a concrete request carrying the `healthz` key together with
another parameter short-circuits to the "OK" body with no page rendered. -/
theorem main_healthz_short_circuit_witness :
    ((["embed", "healthz"].contains "healthz") = true)
    ∧ main ["embed", "healthz"] ⟨some .home, none, none, none⟩
        = ⟨["OK"], none, ⟨some .home, none, none, none⟩⟩ :=
  ⟨by decide,
    main_healthz_short_circuit ["embed", "healthz"]
      ⟨some .home, none, none, none⟩ (by decide)⟩

/-! ## Report assembly (app.py lines 326-333) -/

/-- The Risk Record fields in order (spec section 3, matching the prompt at
app.py lines 108-113): the column order of the assembled table. -/
def riskRecordFields : List String :=
  ["Feature Name", "Threat Type", "Description", "Risk", "Recommendation",
    "Risk Level"]

mutual

/-- Python `str()` rendering of a JSON value, modelled executably; used for
table cells of non-string values. -/
def Json.render : Json → String
  | .null => "None"
  | .bool b => cond b "True" "False"
  | .num n => toString n
  | .str s => s
  | .arr xs => "[" ++ Json.renderList xs ++ "]"
  | .obj fs => "\x7b" ++ Json.renderFields fs ++ "\x7d"

/-- Comma-separated rendering of a JSON array's elements. -/
def Json.renderList : List Json → String
  | [] => ""
  | [x] => Json.render x
  | x :: y :: xs => Json.render x ++ ", " ++ Json.renderList (y :: xs)

/-- Comma-separated rendering of a JSON object's fields. -/
def Json.renderFields : List (String × Json) → String
  | [] => ""
  | [(k, v)] => k ++ ": " ++ Json.render v
  | (k, v) :: f :: fs => k ++ ": " ++ Json.render v ++ ", "
      ++ Json.renderFields (f :: fs)

end

/-- One risk record as the LLM's JSON object gives it: an ordered
association list of field name to value. -/
abbrev RiskRecordJson := List (String × Json)

/-- `pd.DataFrame(list-of-dicts)` column ordering: the keys in order of
first appearance across the records. -/
def addKeys (acc ks : List String) : List String :=
  acc ++ ks.filter (fun k => !acc.contains k)

/-- The ordered columns of `pd.DataFrame(records)`. -/
def dfColumns (records : List RiskRecordJson) : List String :=
  records.foldl (fun acc r => addKeys acc (r.map Prod.fst)) []

/-- A table cell: the record's value for the column, `nan` when the record
lacks the key (how pandas fills missing cells). -/
def cellString (c : Option Json) : String :=
  match c with
  | none => "nan"
  | some v => v.render

/-- One row of a pipe-format Markdown table. -/
def mdRow (cells : List String) : String :=
  "| " ++ String.intercalate " | " cells ++ " |"

/-- `df.to_markdown(index=False)` (app.py line 330), modelled executably as
the tabulate pipe format: header row, separator row, one row per record in
input order with cells in column order (the external library's cell padding
is not reproduced). -/
def tableMarkdown (records : List RiskRecordJson) : String :=
  let cols := dfColumns records
  String.intercalate "\n"
    (mdRow cols
      :: mdRow (cols.map (fun _ => "---"))
      :: records.map (fun r => mdRow (cols.map (fun c => cellString (r.lookup c)))))

/-- The report assembler (app.py lines 326-333): narrative, the literal
heading, and the table, combined exactly as the f-string at line 333. -/
def assembleReport (narrative : String) (records : List RiskRecordJson) :
    String :=
  assembleWith narrative (tableMarkdown records)

lemma addKeys_fields_fields : addKeys riskRecordFields riskRecordFields
    = riskRecordFields := by decide

lemma addKeys_nil_fields : addKeys [] riskRecordFields = riskRecordFields := by
  decide

lemma foldl_addKeys_fields (records : List RiskRecordJson)
    (h : ∀ r ∈ records, r.map Prod.fst = riskRecordFields) :
    records.foldl (fun acc r => addKeys acc (r.map Prod.fst)) riskRecordFields
      = riskRecordFields := by
  induction records with
  | nil => rfl
  | cons r rs ih =>
      have hr : r.map Prod.fst = riskRecordFields := h r (by simp)
      simp only [List.foldl_cons, hr, addKeys_fields_fields]
      exact ih (fun x hx => h x (by simp [hx]))

/-- C8: report assembly is a pure deterministic function of the narrative
and the risk records: it yields exactly the narrative, the literal heading
"## Risk Assessment" (framed by blank lines as in the source f-string), and
the Markdown table of the records; identical inputs give identical output;
and for a non-empty record list whose records carry the Risk Record fields
in order, the table columns are exactly the Risk Record fields in order. -/
theorem assemble_report_shape_deterministic_field_order (narrative : String)
    (records : List RiskRecordJson) :
    assembleReport narrative records
        = narrative ++ "\n\n## Risk Assessment\n\n" ++ tableMarkdown records
    ∧ (∀ n2 r2, narrative = n2 → records = r2 →
        assembleReport narrative records = assembleReport n2 r2)
    ∧ (records ≠ [] → (∀ r ∈ records, r.map Prod.fst = riskRecordFields) →
        dfColumns records = riskRecordFields) := by
  refine ⟨rfl, ?_, ?_⟩
  · intro n2 r2 hn hr
    rw [hn, hr]
  · intro hne hall
    cases records with
    | nil => exact absurd rfl hne
    | cons r rs =>
        have hr : r.map Prod.fst = riskRecordFields := hall r (by simp)
        unfold dfColumns
        simp only [List.foldl_cons, hr, addKeys_nil_fields]
        exact foldl_addKeys_fields rs (fun x hx => hall x (by simp [hx]))

/-- C8 witness: at a concrete narrative and one concrete well-formed risk
record, the assembled report is the exact concatenation and the table
columns are the Risk Record fields in order. -/
theorem assemble_report_shape_deterministic_field_order_witness :
    (([[("Feature Name", Json.str "Password Reset"),
        ("Threat Type", Json.str "Spoofing"),
        ("Description", Json.str "d"), ("Risk", Json.str "r"),
        ("Recommendation", Json.str "m"), ("Risk Level", Json.str "High")]]
        : List RiskRecordJson) ≠ [])
    ∧ (∀ r ∈ ([[("Feature Name", Json.str "Password Reset"),
          ("Threat Type", Json.str "Spoofing"),
          ("Description", Json.str "d"), ("Risk", Json.str "r"),
          ("Recommendation", Json.str "m"), ("Risk Level", Json.str "High")]]
          : List RiskRecordJson), r.map Prod.fst = riskRecordFields)
    ∧ (assembleReport "The narrative."
          [[("Feature Name", Json.str "Password Reset"),
            ("Threat Type", Json.str "Spoofing"),
            ("Description", Json.str "d"), ("Risk", Json.str "r"),
            ("Recommendation", Json.str "m"), ("Risk Level", Json.str "High")]]
        = "The narrative." ++ "\n\n## Risk Assessment\n\n"
            ++ tableMarkdown
              [[("Feature Name", Json.str "Password Reset"),
                ("Threat Type", Json.str "Spoofing"),
                ("Description", Json.str "d"), ("Risk", Json.str "r"),
                ("Recommendation", Json.str "m"),
                ("Risk Level", Json.str "High")]]
        ∧ (∀ n2 r2, "The narrative." = n2 →
            ([[("Feature Name", Json.str "Password Reset"),
              ("Threat Type", Json.str "Spoofing"),
              ("Description", Json.str "d"), ("Risk", Json.str "r"),
              ("Recommendation", Json.str "m"), ("Risk Level", Json.str "High")]]
              : List RiskRecordJson) = r2 →
            assembleReport "The narrative."
                [[("Feature Name", Json.str "Password Reset"),
                  ("Threat Type", Json.str "Spoofing"),
                  ("Description", Json.str "d"), ("Risk", Json.str "r"),
                  ("Recommendation", Json.str "m"),
                  ("Risk Level", Json.str "High")]]
              = assembleReport n2 r2)
        ∧ (([[("Feature Name", Json.str "Password Reset"),
              ("Threat Type", Json.str "Spoofing"),
              ("Description", Json.str "d"), ("Risk", Json.str "r"),
              ("Recommendation", Json.str "m"), ("Risk Level", Json.str "High")]]
              : List RiskRecordJson) ≠ [] →
            (∀ r ∈ ([[("Feature Name", Json.str "Password Reset"),
                ("Threat Type", Json.str "Spoofing"),
                ("Description", Json.str "d"), ("Risk", Json.str "r"),
                ("Recommendation", Json.str "m"),
                ("Risk Level", Json.str "High")]] : List RiskRecordJson),
              r.map Prod.fst = riskRecordFields) →
            dfColumns
                [[("Feature Name", Json.str "Password Reset"),
                  ("Threat Type", Json.str "Spoofing"),
                  ("Description", Json.str "d"), ("Risk", Json.str "r"),
                  ("Recommendation", Json.str "m"),
                  ("Risk Level", Json.str "High")]]
              = riskRecordFields)) :=
  ⟨by simp, by decide,
    assemble_report_shape_deterministic_field_order "The narrative."
      [[("Feature Name", Json.str "Password Reset"),
        ("Threat Type", Json.str "Spoofing"),
        ("Description", Json.str "d"), ("Risk", Json.str "r"),
        ("Recommendation", Json.str "m"), ("Risk Level", Json.str "High")]]⟩

end PRDApp
